import Mathlib

/-!
Verification of the WordPress Environment Indicator browser extension
(raphaelsanchez/chrome-wordpress-env-indicator).

The development shallowly embeds the environment-classification engine, the
badge-reconciliation algorithm, the persistence protocol and the probing
heuristics of the three execution contexts (content script, background
service worker, popup) as executable Lean definitions, and proves or
refutes the specified properties about them.

Conventions of the embedding:
- JavaScript strings are Lean `String`s; `startsWith` / `endsWith` /
  `includes` and literal-substring regular expressions are modelled at the
  level of the underlying `List Char`.
- JavaScript case-insensitive regular-expression matching (the `/i` flag)
  and `toLowerCase` are modelled with ASCII case folding (`Char.toLower`),
  which coincides with the JavaScript behaviour on the ASCII hostnames and
  patterns that occur in this program.
- A JavaScript value that may be `null` becomes an `Option`; code that may
  throw becomes `Except JsError`; a `try { .. } catch { .. }` becomes a
  `match` on that `Except`.
- The DOM is modelled by the record of exactly the signals the source
  queries (selector hits, class lists, attribute values), and the badge
  element owned by the reconciler by the list of DOM nodes carrying its
  reserved id, in document order.
-/

set_option maxRecDepth 65536

/-- Errors a modelled JavaScript expression can throw. -/
inductive JsError where
  | typeError (msg : String)
  | referenceError (msg : String)
deriving DecidableEq, Repr

instance {ε α : Type} [DecidableEq ε] [DecidableEq α] : DecidableEq (Except ε α) :=
  fun a b =>
    match a, b with
    | .ok x, .ok y =>
      if h : x = y then .isTrue (by rw [h]) else .isFalse (by simp [h])
    | .ok _, .error _ => .isFalse (by simp)
    | .error _, .ok _ => .isFalse (by simp)
    | .error e, .error f =>
      if h : e = f then .isTrue (by rw [h]) else .isFalse (by simp [h])

/-! ## Primitive string operations of the JavaScript runtime -/

/-- Model of `str.startsWith(pre)`. -/
def jsStartsWith (s pre : String) : Bool :=
  s.data.take pre.data.length == pre.data

/-- Model of `str.endsWith(sfx)`. -/
def jsEndsWith (s sfx : String) : Bool :=
  decide (sfx.data.length ≤ s.data.length) &&
    (s.data.drop (s.data.length - sfx.data.length) == sfx.data)

/-- Substring search on character lists: does `hay` contain `needle`
as a contiguous run?  Model of `str.includes(needle)` and of
`/needle/.test(str)` for a literal pattern `needle`. -/
def listContains (needle : List Char) : List Char → Bool
  | [] => needle.isEmpty
  | c :: t => needle.isPrefixOf (c :: t) || listContains needle t

/-- Model of `str.includes(sub)`. -/
def jsIncludes (s sub : String) : Bool :=
  listContains sub.data s.data

/-- ASCII lowercasing of a whole string: model of `str.toLowerCase()`
(and of the case folding performed by the regex `/i` flag) on the ASCII
data this program handles. -/
def lowerStr (s : String) : String :=
  String.mk (s.data.map Char.toLower)

/-- Model of `/pat/i.test(host)` for a lowercase literal pattern `pat`:
case-insensitive substring search. -/
def regexTestCI (pat host : String) : Bool :=
  listContains pat.data (lowerStr host).data

/-- Model of the JavaScript idiom `a || b` applied to
`element.getAttribute(..)` results, where `null` and the empty string are
both falsy. -/
def jsOrStr (a : Option String) (b : String) : String :=
  match a with
  | some s => if s = "" then b else s
  | none => b

/-! ## Lemmas about the primitive string operations -/

theorem toLower_idem (c : Char) : c.toLower.toLower = c.toLower := by
  unfold Char.toLower
  by_cases h : c.toNat ≥ 65 ∧ c.toNat ≤ 90
  · rw [if_pos h]
    have hv : (Char.ofNat (c.toNat + 32)).toNat = c.toNat + 32 := by
      rw [Char.ofNat, dif_pos (Or.inl (by omega))]
      simp [Char.ofNatAux, Char.toNat, UInt32.toNat]
    rw [if_neg (by omega)]
  · rw [if_neg h, if_neg h]

theorem lowerStr_idem (s : String) : lowerStr (lowerStr s) = lowerStr s := by
  cases s with
  | mk data =>
    simp only [lowerStr, List.map_map]
    exact congrArg String.mk (List.map_congr_left (fun c _ => toLower_idem c))

theorem listContains_append_right (needle ys : List Char)
    (h : listContains needle ys = true) :
    ∀ xs : List Char, listContains needle (xs ++ ys) = true := by
  intro xs
  induction xs with
  | nil => simpa using h
  | cons x xs ih =>
    simp only [List.cons_append, listContains, Bool.or_eq_true]
    exact Or.inr ih

/-- `endsWith` yields a decomposition of the string. -/
theorem jsEndsWith_decomp {s sfx : String} (h : jsEndsWith s sfx = true) :
    ∃ t : List Char, s.data = t ++ sfx.data := by
  unfold jsEndsWith at h
  rw [Bool.and_eq_true, decide_eq_true_iff, beq_iff_eq] at h
  refine ⟨s.data.take (s.data.length - sfx.data.length), ?_⟩
  have hd := (List.take_append_drop (s.data.length - sfx.data.length) s.data).symm
  rw [h.2] at hd
  exact hd

theorem one_le_length_of_ne_empty {s : String} (h : s.data ≠ []) :
    1 ≤ s.length := by
  cases s with
  | mk data =>
    cases data with
    | nil => exact absurd rfl h
    | cons c t => simp [String.length]

/-! ## Environment data model -/

/-- The `type` field of an environment verdict.  Production is represented
by the absence of a verdict (`Option.none`), never by a third case. -/
inductive EnvType where
  | development
  | staging
deriving DecidableEq, Repr

/-- The CSS token string derived from the environment kind
(the value of the Javascript `type` field). -/
def EnvType.token : EnvType → String
  | .development => "development"
  | .staging => "staging"

/-! ## Content-script classifier (scripts/content.js) -/

namespace Content

/-- SVG icon for the development environment, from `svgIconsArray`. -/
def developmentIcon : String :=
  "<svg width=\"16\" height=\"16\" viewBox=\"0 0 24 24\" fill=\"currentColor\"><path d=\"M22.7 19l-9.1-9.1c.9-2.3.4-5-1.5-6.9-2-2-5-2.4-7.4-1.3L9 6 6 9 1.6 4.7C.4 7.1.9 10.1 2.9 12.1c1.9 1.9 4.6 2.4 6.9 1.5l9.1 9.1c.4.4 1 .4 1.4 0l2.3-2.3c.5-.4.5-1.1.1-1.4z\"/></svg>"

/-- SVG icon for the staging environment, from `svgIconsArray`. -/
def stagingIcon : String :=
  "<svg width=\"16\" height=\"16\" viewBox=\"0 0 24 24\" fill=\"currentColor\"><path d=\"M1 21h22L12 2 1 21zm12-3h-2v-2h2v2zm0-4h-2v-4h2v4z\"/></svg>"

/-- An environment verdict as constructed by the content script:
`{ type, name, color, icon }`. -/
structure Environment where
  type : EnvType
  name : String
  color : String
  icon : String
deriving DecidableEq, Repr

/-- `svgIconsArray().find((icon) => icon.name === environmentType).icon` -/
def getEnvironmentIcon : EnvType → String
  | .development => developmentIcon
  | .staging => stagingIcon

/-- `CONFIG.environment.developmentTlds` -/
def developmentTlds : List String := [".dev", ".test", ".local"]

/-- The literal texts of `CONFIG.environment.stagingPatterns`
(`/staging/i`, `/stage/i`, `/preview/i`, `/demo/i`, `/test/i`). -/
def stagingPatternStrings : List String :=
  ["staging", "stage", "preview", "demo", "test"]

/-- `isLocalDevelopment`: exact `localhost` or a `127.`-prefixed host. -/
def isLocalDevelopment (hostname : String) : Bool :=
  hostname == "localhost" || jsStartsWith hostname "127."

/-- `isDevelopmentTLD`: hostname ends with one of the development TLDs. -/
def isDevelopmentTLD (hostname : String) : Bool :=
  developmentTlds.any (fun tld => jsEndsWith hostname tld)

/-- `isStagingEnvironment`: some staging pattern (a case-insensitive
literal regex) matches the hostname. -/
def isStagingEnvironment (hostname : String) : Bool :=
  stagingPatternStrings.any (fun pat => regexTestCI pat hostname)

/-- `createDevelopmentEnvironment(isLocal)`: `localColor` `#28a745` for
local hosts, `tldColor` `#4f39f6` for development TLDs. -/
def createDevelopmentEnvironment (isLocal : Bool) : Environment :=
  { type := .development
    name := "Development"
    color := if isLocal then "#28a745" else "#4f39f6"
    icon := getEnvironmentIcon .development }

/-- `createStagingEnvironment()` -/
def createStagingEnvironment : Environment :=
  { type := .staging
    name := "Staging"
    color := "#e60076"
    icon := getEnvironmentIcon .staging }

/-- `detectEnvironmentType(hostname)`: the content-script classifier,
rules in strict order, first match wins, `null` (production) otherwise. -/
def detectEnvironmentType (hostname : String) : Option Environment :=
  if isLocalDevelopment hostname then
    some (createDevelopmentEnvironment true)
  else if isDevelopmentTLD hostname then
    some (createDevelopmentEnvironment false)
  else if isStagingEnvironment hostname then
    some createStagingEnvironment
  else
    none

/-- `detectEnvironment()` of the non-refactored content-script variant,
with the three checks written out inline, as a function of the
hostname read from `window.location`. -/
def detectEnvironment (hostname : String) : Option Environment :=
  if hostname == "localhost" || jsStartsWith hostname "127." then
    some { type := .development, name := "Development", color := "#28a745",
           icon := developmentIcon }
  else if jsEndsWith hostname ".dev" || jsEndsWith hostname ".test" ||
      jsEndsWith hostname ".local" then
    some { type := .development, name := "Development", color := "#4f39f6",
           icon := developmentIcon }
  else if regexTestCI "staging" hostname || regexTestCI "stage" hostname ||
      regexTestCI "preview" hostname || regexTestCI "demo" hostname ||
      regexTestCI "test" hostname then
    some { type := .staging, name := "Staging", color := "#e60076",
           icon := stagingIcon }
  else
    none

/-- The two content-script variants classify every hostname alike. -/
theorem detectEnvironment_eq (hostname : String) :
    detectEnvironment hostname = detectEnvironmentType hostname := by
  unfold detectEnvironment detectEnvironmentType isLocalDevelopment
    isDevelopmentTLD isStagingEnvironment createDevelopmentEnvironment
    createStagingEnvironment getEnvironmentIcon developmentTlds
    stagingPatternStrings
  simp [List.any, or_assoc]

end Content

/-! ## URL parsing (`new URL(url)` of the host platform) -/

/-- Index of the first occurrence of `needle` in `hay`, if any. -/
def findSubIdx (needle : List Char) : List Char → Option Nat
  | [] => if needle.isEmpty then some 0 else none
  | c :: t =>
    if needle.isPrefixOf (c :: t) then some 0
    else (findSubIdx needle t).map (· + 1)

/-- Modelled from the platform: `new URL(url).hostname`, simplified WHATWG
parsing.  Requires an alphabetic scheme followed by `://`; the hostname is
the authority up to the first `/`, `?` or `#`, with any userinfo
(up to the last `@`) and any `:port` stripped; it must be nonempty.
Returns `none` where `new URL` would throw on such inputs. -/
def parseUrl (url : String) : Option String :=
  let cs := url.data
  match findSubIdx "://".data cs with
  | none => none
  | some i =>
    let scheme := cs.take i
    if scheme.isEmpty || !scheme.all (fun c => c.isAlpha) then none
    else
      let after := cs.drop (i + 3)
      let auth := after.takeWhile (fun c => c ≠ '/' && c ≠ '?' && c ≠ '#')
      let hostPort := (auth.reverse.takeWhile (fun c => c ≠ '@')).reverse
      let host := hostPort.takeWhile (fun c => c ≠ ':')
      if host.isEmpty then none else some (String.mk host)

/-! ## Popup classifier and presenter (scripts/popup.js) -/

namespace Popup

/-- A popup-side environment configuration object (no icon field):
an entry of `ENVIRONMENT_CONFIG`. -/
structure EnvConfig where
  type : EnvType
  name : String
  color : String
deriving DecidableEq, Repr

/-- `ENVIRONMENT_CONFIG.development` -/
def developmentConfig : EnvConfig :=
  { type := .development, name := "Development", color := "#28a745" }

/-- `ENVIRONMENT_CONFIG.staging` -/
def stagingConfig : EnvConfig :=
  { type := .staging, name := "Staging", color := "#ffc107" }

/-- `DEVELOPMENT_TLDS` -/
def DEVELOPMENT_TLDS : List String := [".dev", ".test", ".local"]

/-- Popup copy of `isLocalDevelopment`. -/
def isLocalDevelopment (hostname : String) : Bool :=
  hostname == "localhost" || jsStartsWith hostname "127."

/-- Popup copy of `isDevelopmentTLD` (over `DEVELOPMENT_TLDS`). -/
def isDevelopmentTLD (hostname : String) : Bool :=
  DEVELOPMENT_TLDS.any (fun tld => jsEndsWith hostname tld)

/-- Popup copy of `isStagingEnvironment` (over `STAGING_PATTERNS`). -/
def isStagingEnvironment (hostname : String) : Bool :=
  ["staging", "stage", "preview", "demo", "test"].any
    (fun pat => regexTestCI pat hostname)

/-- Popup `detectEnvironmentType(hostname)`: note that the two development
rules are merged into one branch returning the single
`ENVIRONMENT_CONFIG.development` object. -/
def detectEnvironmentType (hostname : String) : Option EnvConfig :=
  if isLocalDevelopment hostname || isDevelopmentTLD hostname then
    some developmentConfig
  else if isStagingEnvironment hostname then
    some stagingConfig
  else
    none

/-- What the popup displays for the environment card. -/
inductive View where
  | noData
  | envCard (env : EnvConfig)
deriving DecidableEq, Repr

/-- `detectEnvironmentInPopup(url)` followed by `updateEnvironmentUI`:
parse the active tab's URL (the `try`/`catch` resolves a parse failure to
the no-data state), classify the hostname, and either show the environment
card or the no-data state. -/
def detectEnvironmentInPopup (url : String) : View :=
  match parseUrl url with
  | none => .noData
  | some hostname =>
    match detectEnvironmentType hostname with
    | some env => .envCard env
    | none => .noData

end Popup

/-! ## Background relay (scripts/background.js) -/

namespace Background

/-- `ENVIRONMENT_COLORS` -/
def ENVIRONMENT_COLORS_development : String := "#28a745"

/-- `ENVIRONMENT_COLORS` -/
def ENVIRONMENT_COLORS_staging : String := "#e60076"

/-- A background-side environment object (no icon field). -/
structure BgEnvironment where
  type : EnvType
  name : String
  color : String
deriving DecidableEq, Repr

/-- First development pattern group of `detectEnvironmentFromUrl`:
`patterns: ['localhost', '127.']` with
`matcher: (host, pattern) => host === pattern || host.startsWith(pattern)`. -/
def bgDevGroup1 (host : String) : Bool :=
  ["localhost", "127."].any (fun pat => host == pat || jsStartsWith host pat)

/-- Second development pattern group of `detectEnvironmentFromUrl`:
`patterns: ['.dev', '.test', '.local']` with
`matcher: (host, pattern) => host.endsWith(pattern)`. -/
def bgDevGroup2 (host : String) : Bool :=
  [".dev", ".test", ".local"].any (fun pat => jsEndsWith host pat)

/-- The staging matcher `(host, pattern) => pattern.test(host)` where
`pattern` ranges over the plain strings
`['staging', 'stage', 'preview', 'demo', 'test']`: a JavaScript string has
no `test` method, so every call throws a `TypeError`. -/
def jsStringTestMethod (_pat _host : String) : Except JsError Bool :=
  .error (.typeError "pattern.test is not a function")

/-- `patterns.some(..)` over a matcher that can throw: evaluates the
matcher left to right, propagating the first thrown error. -/
def someExcept (f : String → Except JsError Bool) : List String → Except JsError Bool
  | [] => .ok false
  | p :: ps =>
    match f p with
    | .error e => .error e
    | .ok true => .ok true
    | .ok false => someExcept f ps

/-- The staging check of `detectEnvironmentFromUrl`:
`patterns.some((pattern) => matcher(hostname, pattern))` over the string
patterns.  Throws on the first pattern. -/
def bgStagingCheck (host : String) : Except JsError Bool :=
  someExcept (fun pat => jsStringTestMethod pat host)
    ["staging", "stage", "preview", "demo", "test"]

/-- Body of the `try` block of `detectEnvironmentFromUrl` after the URL
has been parsed and lowercased: development groups in order (the first
group's color is `ENVIRONMENT_COLORS.development` because its `patterns`
array does not include `'.dev'`, the second group's is `'#4f39f6'` because
its does), then the staging check. -/
def bgClassifyHost (hostname : String) : Except JsError (Option BgEnvironment) :=
  if bgDevGroup1 hostname then
    .ok (some { type := .development, name := "Development",
                color := ENVIRONMENT_COLORS_development })
  else if bgDevGroup2 hostname then
    .ok (some { type := .development, name := "Development",
                color := "#4f39f6" })
  else
    match bgStagingCheck hostname with
    | .error e => .error e
    | .ok true => .ok (some { type := .staging, name := "Staging",
                              color := ENVIRONMENT_COLORS_staging })
    | .ok false => .ok none

/-- `detectEnvironmentFromUrl(url)`: parse the URL, lowercase the
hostname, classify; any exception inside the `try` block (an invalid URL,
or the `TypeError` thrown by the staging matcher) is caught and resolved
to `null`. -/
def detectEnvironmentFromUrl (url : String) : Option BgEnvironment :=
  match parseUrl url with
  | none => none
  | some rawHost =>
    match bgClassifyHost (lowerStr rawHost) with
    | .ok r => r
    | .error _ => none

/-- The toolbar state written by `updateExtensionBadge` for one tab:
badge text, badge background color, and action title (tooltip). -/
structure BadgeAction where
  text : String
  color : Option String
  title : String
deriving DecidableEq, Repr

/-- `updateExtensionBadge(tabId, url)`: set text `env`, the environment's
color, and a `<name> detected` tooltip when an environment is detected;
otherwise clear the badge text and reset the tooltip. -/
def updateExtensionBadge (url : String) : BadgeAction :=
  match detectEnvironmentFromUrl url with
  | some env =>
    { text := "env"
      color := some env.color
      title := "WordPress Environment Indicator - " ++ env.name ++ " detected" }
  | none =>
    { text := ""
      color := none
      title := "WordPress Environment Indicator" }

end Background

/-! ## Content-script DOM model: WordPress detection and badge reconciliation -/

namespace Content

/-- The WordPress signals the site-detection predicate queries. -/
structure WpSignals where
  hasAdminBar : Bool
  bodyClassList : List String
  hasWpBody : Bool
  hasWpContent : Bool
  hasWpFooter : Bool
  generatorContent : Option String
deriving DecidableEq, Repr

/-- `isWordPressSite()`: the disjunction of the four detection methods, in
source order (admin bar, body classes, admin-area elements, generator meta
tag). -/
def isWordPressSite (w : WpSignals) : Bool :=
  w.hasAdminBar
    || (w.bodyClassList.contains "wp-admin" || w.bodyClassList.contains "admin-bar")
    || (w.hasWpBody || w.hasWpContent || w.hasWpFooter)
    || (match w.generatorContent with
        | some content => jsIncludes content "WordPress"
        | none => false)

/-- The DOM element built by `createEnvironmentBadge`: the container with
the reserved id, its class, the inner link's class and the inner HTML. -/
structure Badge where
  elemId : String
  className : String
  linkClassName : String
  innerHtml : String
deriving DecidableEq, Repr

/-- `createEnvironmentBadge(environment)` -/
def createEnvironmentBadge (environment : Environment) : Badge :=
  { elemId := "wp-admin-bar-wp-env-indicator"
    className := "wp-env-badge"
    linkClassName := "ab-item wp-env-badge-link wp-env-" ++ environment.type.token
    innerHtml := "<span class=\"wp-env-text\">" ++ environment.name ++ "</span>" }

/-- State of one host document as seen by the reconciler: hostname and
href of `window.location`, the WordPress signals, which of the three
anchor points exist, and the nodes carrying the badge's reserved id, in
document order. -/
structure DocState where
  hostname : String
  href : String
  wp : WpSignals
  hasSiteNameAnchor : Bool
  hasRootDefaultAnchor : Bool
  hasAbTopMenuAnchor : Bool
  badges : List Badge
deriving DecidableEq, Repr

/-- The persisted record written by `chrome.storage.local.set`. -/
structure StoredState where
  currentEnvironment : Option Environment
  currentUrl : Option String
  detectedAt : Option String
deriving DecidableEq, Repr

/-- Messages the content script can send over `chrome.runtime`. -/
inductive RuntimeMessage where
  | openPopup
  | environmentUpdated (env : Environment)
deriving DecidableEq, Repr

/-- `removeExistingBadge()`: `document.getElementById(id)` returns the
first element with the reserved id (in document order) and `.remove()`
deletes it; a no-op when none exists. -/
def removeExistingBadge (d : DocState) : DocState :=
  { d with badges := d.badges.tail }

/-- `shouldInjectBadge()` -/
def shouldInjectBadge (d : DocState) : Bool :=
  isWordPressSite d.wp && (detectEnvironmentType d.hostname).isSome

/-- The candidate anchor points, in the order of
`CONFIG.badge.injectionSelectors`. -/
inductive InjectionAnchor where
  | siteName
  | rootDefault
  | abTopMenu
deriving DecidableEq, Repr

/-- `findBadgeInjectionPoint()`: the first existing anchor, if any. -/
def findBadgeInjectionPoint (d : DocState) : Option InjectionAnchor :=
  if d.hasSiteNameAnchor then some .siteName
  else if d.hasRootDefaultAnchor then some .rootDefault
  else if d.hasAbTopMenuAnchor then some .abTopMenu
  else none

/-- `injectBadge()`, one reconciliation pass: remove any existing badge,
stop if the document is not a WordPress site or no environment is
detected, otherwise build the badge, insert it when an anchor exists,
persist the verdict (`currentEnvironment`, `currentUrl`, `detectedAt` at
the current time `now`) and send `environmentUpdated`.  Returns the new
document state, the new stored state, and the messages sent. -/
def injectBadge (now : String) (d : DocState) (st : StoredState) :
    DocState × StoredState × List RuntimeMessage :=
  let d1 := removeExistingBadge d
  if shouldInjectBadge d1 then
    match detectEnvironmentType d1.hostname with
    | some environment =>
      let badge := createEnvironmentBadge environment
      let d2 :=
        match findBadgeInjectionPoint d1 with
        | some _ => { d1 with badges := d1.badges ++ [badge] }
        | none => d1
      (d2,
       { currentEnvironment := some environment
         currentUrl := some d1.href
         detectedAt := some now },
       [.environmentUpdated environment])
    | none => (d1, st, [])
  else (d1, st, [])

end Content

/-! ## Page prober (getWordPressInfo and the popup's fallback copies) -/

/-- The document signals the probing heuristics read. -/
structure ProbeDoc where
  generatorContent : Option String
  wpIncludesScriptSrcs : List String
  langAttr : Option String
  xmlLangAttr : Option String
  bodyClassName : String
  themesStylesheetHref : Option String
deriving DecidableEq, Repr

/-- `{ version, language, theme }` -/
structure WpInfo where
  version : String
  language : String
  theme : String
deriving DecidableEq, Repr

/-- Characters matched by the regex class `[\d.]`. -/
def isVersionChar (c : Char) : Bool := c.isDigit || c == '.'

/-- Characters matched by the regex class `[a-zA-Z0-9-_]`. -/
def isThemeNameChar (c : Char) : Bool := c.isAlphanum || c == '-' || c == '_'

/-- Try each start position of the subject from the left, returning the
first successful match: the leftmost-match rule of JavaScript regexes. -/
def scanFirst (f : List Char → Option String) : List Char → Option String
  | [] => none
  | c :: cs =>
    match f (c :: cs) with
    | some r => some r
    | none => scanFirst f cs

/-- Match `/WordPress\s+([\d.]+)/` anchored at the current position:
the literal `WordPress`, one or more whitespace characters, then a
nonempty capture of `[\d.]` characters. -/
def wpGeneratorVersionAt (cs : List Char) : Option String :=
  if "WordPress".data.isPrefixOf cs then
    let rest := cs.drop 9
    let ws := rest.takeWhile (fun c => c.isWhitespace)
    if ws.isEmpty then none
    else
      let digits := (rest.drop ws.length).takeWhile isVersionChar
      if digits.isEmpty then none else some (String.mk digits)
  else none

/-- `generator.content.match(/WordPress\s+([\d.]+)/)`, capture group 1. -/
def matchGeneratorVersion (content : String) : Option String :=
  scanFirst wpGeneratorVersionAt content.data

/-- Backtracking for `([\d.]+)\.min\.js`: try capture lengths from `k`
down to 1, keeping the longest nonempty prefix of the greedy `[\d.]` run
after which the remainder still starts with `.min.js`. -/
def tryCaptureLens (run tail : List Char) : Nat → Option String
  | 0 => none
  | k + 1 =>
    let p := run.take (k + 1)
    if p.isEmpty then none
    else if ".min.js".data.isPrefixOf (run.drop (k + 1) ++ tail) then
      some (String.mk p)
    else tryCaptureLens run tail k

/-- Match `/wp-includes\/js\/wp-([\d.]+)\.min\.js/` anchored at the
current position. -/
def wpScriptVersionAt (cs : List Char) : Option String :=
  if "wp-includes/js/wp-".data.isPrefixOf cs then
    let rest := cs.drop 18
    let run := rest.takeWhile isVersionChar
    tryCaptureLens run (rest.drop run.length) run.length
  else none

/-- `script.src.match(/wp-includes\/js\/wp-([\d.]+)\.min\.js/)`. -/
def matchScriptVersion (src : String) : Option String :=
  scanFirst wpScriptVersionAt src.data

/-- Match `/theme-([a-zA-Z0-9-_]+)/` anchored at the current position. -/
def themeClassAt (cs : List Char) : Option String :=
  if "theme-".data.isPrefixOf cs then
    let run := (cs.drop 6).takeWhile isThemeNameChar
    if run.isEmpty then none else some (String.mk run)
  else none

/-- `bodyClasses.match(/theme-([a-zA-Z0-9-_]+)/)`. -/
def matchThemeClass (bodyClasses : String) : Option String :=
  scanFirst themeClassAt bodyClasses.data

/-- Match `/themes\/([^\/]+)/` anchored at the current position. -/
def themesPathAt (cs : List Char) : Option String :=
  if "themes/".data.isPrefixOf cs then
    let run := (cs.drop 7).takeWhile (fun c => c != '/')
    if run.isEmpty then none else some (String.mk run)
  else none

/-- `href.match(/themes\/([^\/]+)/)`. -/
def matchThemesPath (href : String) : Option String :=
  scanFirst themesPathAt href.data

namespace Content

/-- `CONFIG.wordpress.info.defaults`: the `-` sentinel. -/
def defaultInfoValue : String := "-"

/-- `getVersionFromGenerator()` -/
def getVersionFromGenerator (d : ProbeDoc) : String :=
  match d.generatorContent with
  | some content =>
    if jsIncludes content "WordPress" then
      match matchGeneratorVersion content with
      | some v => v
      | none => defaultInfoValue
    else defaultInfoValue
  | none => defaultInfoValue

/-- `getVersionFromScripts()`: first matching `wp-includes` script wins. -/
def getVersionFromScripts (d : ProbeDoc) : String :=
  go d.wpIncludesScriptSrcs
where
  go : List String → String
    | [] => defaultInfoValue
    | src :: rest =>
      match matchScriptVersion src with
      | some v => v
      | none => go rest

/-- `getWordPressVersion()`: generator first, scripts second. -/
def getWordPressVersion (d : ProbeDoc) : String :=
  let generatorVersion := getVersionFromGenerator d
  if generatorVersion ≠ defaultInfoValue then generatorVersion
  else getVersionFromScripts d

/-- `getWordPressLanguage()`: `lang` attribute, `xml:lang` attribute, `-`. -/
def getWordPressLanguage (d : ProbeDoc) : String :=
  jsOrStr d.langAttr (jsOrStr d.xmlLangAttr defaultInfoValue)

/-- `getThemeFromBodyClasses()` -/
def getThemeFromBodyClasses (d : ProbeDoc) : String :=
  match matchThemeClass d.bodyClassName with
  | some t => t
  | none => defaultInfoValue

/-- `getThemeFromStylesheets()` -/
def getThemeFromStylesheets (d : ProbeDoc) : String :=
  match d.themesStylesheetHref with
  | some href =>
    match matchThemesPath href with
    | some t => t
    | none => defaultInfoValue
  | none => defaultInfoValue

/-- `getWordPressTheme()`: body classes first, stylesheets second. -/
def getWordPressTheme (d : ProbeDoc) : String :=
  let bodyClassTheme := getThemeFromBodyClasses d
  if bodyClassTheme ≠ defaultInfoValue then bodyClassTheme
  else getThemeFromStylesheets d

/-- `getWordPressInfo()`: the probe, answering `getWordPressInfo`
messages. -/
def getWordPressInfo (d : ProbeDoc) : WpInfo :=
  { version := getWordPressVersion d
    language := getWordPressLanguage d
    theme := getWordPressTheme d }

end Content

namespace Popup

/-- Popup `detectWordPressVersionFromGenerator()`. -/
def detectWordPressVersionFromGenerator (d : ProbeDoc) : String :=
  match d.generatorContent with
  | some content =>
    if jsIncludes content "WordPress" then
      match matchGeneratorVersion content with
      | some v => v
      | none => "-"
    else "-"
  | none => "-"

/-- Popup `detectWordPressVersionFromScripts()`. -/
def detectWordPressVersionFromScripts (d : ProbeDoc) : String :=
  go d.wpIncludesScriptSrcs
where
  go : List String → String
    | [] => "-"
    | src :: rest =>
      match matchScriptVersion src with
      | some v => v
      | none => go rest

/-- Popup `detectWordPressVersion()`. -/
def detectWordPressVersion (d : ProbeDoc) : String :=
  let version := detectWordPressVersionFromGenerator d
  if version = "-" then detectWordPressVersionFromScripts d else version

/-- Popup `detectPageLanguage()`. -/
def detectPageLanguage (d : ProbeDoc) : String :=
  jsOrStr d.langAttr (jsOrStr d.xmlLangAttr "-")

/-- Popup `detectThemeFromBodyClasses()` (returns `null` on no match). -/
def detectThemeFromBodyClasses (d : ProbeDoc) : Option String :=
  matchThemeClass d.bodyClassName

/-- Popup `detectThemeFromStylesheets()` (returns `null` on no match). -/
def detectThemeFromStylesheets (d : ProbeDoc) : Option String :=
  match d.themesStylesheetHref with
  | some href => matchThemesPath href
  | none => none

/-- Popup `detectWordPressTheme()`. -/
def detectWordPressTheme (d : ProbeDoc) : String :=
  match detectThemeFromBodyClasses d with
  | some theme => theme
  | none =>
    match detectThemeFromStylesheets d with
    | some theme => theme
    | none => "-"

/-- The free names referenced by the function literal the popup passes to
`chrome.scripting.executeScript({ func: .. })` in
`detectWordPressInfoFromTab`. -/
def injectedProbeFreeNames : List String :=
  ["detectWordPressVersion", "detectPageLanguage", "detectWordPressTheme"]

/-- The popup helper names available inside the target tab where the
serialized function is executed: `chrome.scripting.executeScript`
serializes the function literal without its closure, so none of the
popup's helper functions exist there. -/
def injectedContextNames : List String := []

/-- Evaluation of the injected probe function in the target tab: if every
free name of the function body is defined in the injected context, it
computes the popup's three detectors on the tab's document; otherwise the
call throws a `ReferenceError`. -/
def evalInjectedProbe (d : ProbeDoc) : Except JsError WpInfo :=
  if injectedProbeFreeNames.all (fun n => injectedContextNames.contains n) then
    .ok { version := detectWordPressVersion d
          language := detectPageLanguage d
          theme := detectWordPressTheme d }
  else
    .error (.referenceError "detectWordPressVersion is not defined")

/-- `detectWordPressInfoFromTab(tabId)`: run the injected probe; when the
injection produces no result (`results[0].result` absent because the
injected function threw), fall back to dashes for all three fields. -/
def detectWordPressInfoFromTab (d : ProbeDoc) : WpInfo :=
  match evalInjectedProbe d with
  | .ok info => info
  | .error _ => { version := "-", language := "-", theme := "-" }

/-- `handleWordPressInfoResponse(response, tabId)`: a missing response
(`chrome.runtime.lastError` or no receiver) triggers the injection
fallback, otherwise the response is displayed. -/
def handleWordPressInfoResponse (response : Option WpInfo) (d : ProbeDoc) :
    WpInfo :=
  match response with
  | some info => info
  | none => detectWordPressInfoFromTab d

end Popup

/-! ## Lemmas: every probe detector yields a nonempty string -/

theorem mk_one_le_length {l : List Char} (h : l.isEmpty = false) :
    1 ≤ (String.mk l).length := by
  cases l with
  | nil => simp [List.isEmpty] at h
  | cons c t => simp [String.length]

theorem scanFirst_one_le_length {f : List Char → Option String}
    (hf : ∀ cs s, f cs = some s → 1 ≤ s.length) :
    ∀ l s, scanFirst f l = some s → 1 ≤ s.length := by
  intro l
  induction l with
  | nil => intro s h; simp [scanFirst] at h
  | cons c cs ih =>
    intro s h
    unfold scanFirst at h
    cases hf0 : f (c :: cs) with
    | some r => rw [hf0] at h; cases h; exact hf _ _ hf0
    | none => rw [hf0] at h; exact ih s h

theorem wpGeneratorVersionAt_one_le_length (cs : List Char) (s : String)
    (h : wpGeneratorVersionAt cs = some s) : 1 ≤ s.length := by
  unfold wpGeneratorVersionAt at h
  split at h
  · dsimp only at h
    split at h
    · exact absurd h (by simp)
    · split at h
      · exact absurd h (by simp)
      · next hne =>
        cases h
        exact mk_one_le_length (by simpa using hne)
  · exact absurd h (by simp)

theorem tryCaptureLens_one_le_length (run tail : List Char) :
    ∀ k s, tryCaptureLens run tail k = some s → 1 ≤ s.length := by
  intro k
  induction k with
  | zero => intro s h; simp [tryCaptureLens] at h
  | succ k ih =>
    intro s h
    unfold tryCaptureLens at h
    dsimp only at h
    split at h
    · exact absurd h (by simp)
    · next hne =>
      split at h
      · cases h
        exact mk_one_le_length (by simpa using hne)
      · exact ih s h

theorem wpScriptVersionAt_one_le_length (cs : List Char) (s : String)
    (h : wpScriptVersionAt cs = some s) : 1 ≤ s.length := by
  unfold wpScriptVersionAt at h
  split at h
  · exact tryCaptureLens_one_le_length _ _ _ _ h
  · exact absurd h (by simp)

theorem themeClassAt_one_le_length (cs : List Char) (s : String)
    (h : themeClassAt cs = some s) : 1 ≤ s.length := by
  unfold themeClassAt at h
  split at h
  · dsimp only at h
    split at h
    · exact absurd h (by simp)
    · next hne =>
      cases h
      exact mk_one_le_length (by simpa using hne)
  · exact absurd h (by simp)

theorem themesPathAt_one_le_length (cs : List Char) (s : String)
    (h : themesPathAt cs = some s) : 1 ≤ s.length := by
  unfold themesPathAt at h
  split at h
  · dsimp only at h
    split at h
    · exact absurd h (by simp)
    · next hne =>
      cases h
      exact mk_one_le_length (by simpa using hne)
  · exact absurd h (by simp)

theorem jsOrStr_one_le_length (a : Option String) (b : String)
    (hb : 1 ≤ b.length) : 1 ≤ (jsOrStr a b).length := by
  unfold jsOrStr
  cases a with
  | none => exact hb
  | some s =>
    dsimp only
    by_cases hs : s = ""
    · rw [if_pos hs]; exact hb
    · rw [if_neg hs]
      exact one_le_length_of_ne_empty (fun hd => hs (by cases s; cases hd; rfl))

namespace Content

theorem getVersionFromGenerator_one_le_length (d : ProbeDoc) :
    1 ≤ (getVersionFromGenerator d).length := by
  unfold getVersionFromGenerator
  cases d.generatorContent with
  | none => decide
  | some content =>
    dsimp only
    split
    · cases hm : matchGeneratorVersion content with
      | none => simp [hm]; decide
      | some v =>
        simp only [hm]
        exact scanFirst_one_le_length wpGeneratorVersionAt_one_le_length _ _ hm
    · decide

theorem getVersionFromScripts_one_le_length (d : ProbeDoc) :
    1 ≤ (getVersionFromScripts d).length := by
  unfold getVersionFromScripts
  induction d.wpIncludesScriptSrcs with
  | nil => decide
  | cons src rest ih =>
    unfold getVersionFromScripts.go
    cases hm : matchScriptVersion src with
    | none => exact ih
    | some v =>
      simp only [hm]
      exact scanFirst_one_le_length wpScriptVersionAt_one_le_length _ _ hm

theorem getWordPressVersion_one_le_length (d : ProbeDoc) :
    1 ≤ (getWordPressVersion d).length := by
  unfold getWordPressVersion
  dsimp only
  split
  · exact getVersionFromGenerator_one_le_length d
  · exact getVersionFromScripts_one_le_length d

theorem getWordPressLanguage_one_le_length (d : ProbeDoc) :
    1 ≤ (getWordPressLanguage d).length :=
  jsOrStr_one_le_length _ _ (jsOrStr_one_le_length _ _ (by decide))

theorem getThemeFromBodyClasses_one_le_length (d : ProbeDoc) :
    1 ≤ (getThemeFromBodyClasses d).length := by
  unfold getThemeFromBodyClasses
  cases hm : matchThemeClass d.bodyClassName with
  | none => decide
  | some t =>
    simp only [hm]
    exact scanFirst_one_le_length themeClassAt_one_le_length _ _ hm

theorem getThemeFromStylesheets_one_le_length (d : ProbeDoc) :
    1 ≤ (getThemeFromStylesheets d).length := by
  unfold getThemeFromStylesheets
  cases d.themesStylesheetHref with
  | none => decide
  | some href =>
    dsimp only
    cases hm : matchThemesPath href with
    | none => simp [hm]; decide
    | some t =>
      simp only [hm]
      exact scanFirst_one_le_length themesPathAt_one_le_length _ _ hm

theorem getWordPressTheme_one_le_length (d : ProbeDoc) :
    1 ≤ (getWordPressTheme d).length := by
  unfold getWordPressTheme
  dsimp only
  split
  · exact getThemeFromBodyClasses_one_le_length d
  · exact getThemeFromStylesheets_one_le_length d

end Content

/-! ## Lemmas: one reconciliation pass, characterized -/

namespace Content

/-- Full case description of one `injectBadge` pass: the removal always
happens; badge insertion, persistence and notification happen exactly when
the document is a WordPress site and the classifier returns a verdict;
insertion additionally requires an anchor point. -/
theorem injectBadge_spec (now : String) (d : DocState) (st : StoredState) :
    injectBadge now d st =
      match detectEnvironmentType d.hostname with
      | some env =>
        if isWordPressSite d.wp then
          ((match findBadgeInjectionPoint d with
            | some _ =>
              { d with badges := d.badges.tail ++ [createEnvironmentBadge env] }
            | none => removeExistingBadge d),
           { currentEnvironment := some env
             currentUrl := some d.href
             detectedAt := some now },
           [.environmentUpdated env])
        else (removeExistingBadge d, st, [])
      | none => (removeExistingBadge d, st, []) := by
  cases hE : detectEnvironmentType d.hostname <;>
    cases hW : isWordPressSite d.wp <;>
      cases hS : d.hasSiteNameAnchor <;>
        cases hR : d.hasRootDefaultAnchor <;>
          cases hM : d.hasAbTopMenuAnchor <;>
            simp [injectBadge, shouldInjectBadge, removeExistingBadge,
              findBadgeInjectionPoint, hE, hW, hS, hR, hM]

end Content

theorem tail_eq_nil_of_length_le_one {α : Type} {l : List α}
    (h : l.length ≤ 1) : l.tail = [] := by
  cases l with
  | nil => rfl
  | cons a t =>
    cases t with
    | nil => rfl
    | cons b t2 => simp at h

namespace Content

/-- The badge nodes present after one pass, for a document that initially
carries at most one. -/
theorem injectBadge_badges (now : String) (d : DocState) (st : StoredState)
    (hb : d.badges.tail = []) :
    (injectBadge now d st).1.badges =
      match detectEnvironmentType d.hostname with
      | some env =>
        if isWordPressSite d.wp && (findBadgeInjectionPoint d).isSome then
          [createEnvironmentBadge env]
        else []
      | none => [] := by
  rw [injectBadge_spec]
  cases hE : detectEnvironmentType d.hostname with
  | none => simp [removeExistingBadge, hb]
  | some env =>
    cases hW : isWordPressSite d.wp
    · simp [removeExistingBadge, hb]
    · cases hF : findBadgeInjectionPoint d with
      | none => simp [removeExistingBadge, hF, hb]
      | some anchor => simp [hF, hb]

/-- A pass never changes the hostname, the WordPress signals or the
anchor points of the document. -/
theorem injectBadge_statics (now : String) (d : DocState) (st : StoredState) :
    (injectBadge now d st).1.hostname = d.hostname
    ∧ (injectBadge now d st).1.wp = d.wp
    ∧ findBadgeInjectionPoint (injectBadge now d st).1 = findBadgeInjectionPoint d := by
  rw [injectBadge_spec]
  cases hE : detectEnvironmentType d.hostname with
  | none => exact ⟨rfl, rfl, rfl⟩
  | some env =>
    cases hW : isWordPressSite d.wp
    · exact ⟨rfl, rfl, rfl⟩
    · cases hF : findBadgeInjectionPoint d <;> exact ⟨rfl, rfl, hF⟩

end Content

/-! ## The claims -/

/-- C1: the spec says that for a URL whose hostname matches a staging
pattern and no development rule (e.g. `myapp.staging.example.com`), the
background's `detectEnvironmentFromUrl` returns a Staging environment and
`updateExtensionBadge` sets badge text and a tooltip including
`Staging detected`.  The code contradicts this: the background's staging
patterns are plain strings whose matcher calls `pattern.test(host)`, a
`TypeError` (strings have no `test` method) that the surrounding `try`
catches, so classification returns `null` and the badge is cleared with
the generic tooltip — even though the same hostname does match the
content script's staging regexes and matches no development rule. -/
theorem c1_background_staging_detection_throws :
    Content.isStagingEnvironment "myapp.staging.example.com" = true
    ∧ Content.isLocalDevelopment "myapp.staging.example.com" = false
    ∧ Content.isDevelopmentTLD "myapp.staging.example.com" = false
    ∧ Background.bgStagingCheck "myapp.staging.example.com"
        = .error (.typeError "pattern.test is not a function")
    ∧ Background.detectEnvironmentFromUrl "https://myapp.staging.example.com/" = none
    ∧ Background.updateExtensionBadge "https://myapp.staging.example.com/"
        = { text := "", color := none, title := "WordPress Environment Indicator" } := by
  decide

/-- Concrete WordPress page for C4: the document carries a generator tag
`WordPress 6.4.2`, a `fr-FR` lang attribute and a `theme-twentytwentyfour`
body class. -/
def c4Doc : ProbeDoc :=
  { generatorContent := some "WordPress 6.4.2"
    wpIncludesScriptSrcs := []
    langAttr := some "fr-FR"
    xmlLangAttr := none
    bodyClassName := "home theme-twentytwentyfour logged-in"
    themesStylesheetHref := none }

/-- C4: the spec says that when the `getWordPressInfo` round-trip fails
the popup falls back to script injection that executes the same detection
logic in the target tab and still populates the fields, showing `-` only
if the injection itself fails.  The code contradicts this: the function
literal passed to `chrome.scripting.executeScript` is serialized without
its closure, so the popup helpers `detectWordPressVersion`,
`detectPageLanguage` and `detectWordPressTheme` it references are
undefined in the target context; the injected call throws a
`ReferenceError` and the popup shows `-` for all three fields even on a
page where that very detection logic extracts real values. -/
theorem c4_injection_fallback_always_dashes :
    Popup.handleWordPressInfoResponse none c4Doc
        = { version := "-", language := "-", theme := "-" }
    ∧ Popup.detectWordPressVersion c4Doc = "6.4.2"
    ∧ Popup.detectPageLanguage c4Doc = "fr-FR"
    ∧ Popup.detectWordPressTheme c4Doc = "twentytwentyfour"
    ∧ Popup.evalInjectedProbe c4Doc
        = .error (.referenceError "detectWordPressVersion is not defined") := by
  decide

/-- C8: `getWordPressInfo` always returns all three `PlatformInfo` fields
populated — each is a nonempty string (a real extracted value or the
sentinel `-`), never an absent field. -/
theorem c8_probe_completeness (d : ProbeDoc) :
    ∃ v l t, Content.getWordPressInfo d = { version := v, language := l, theme := t }
      ∧ 1 ≤ v.length ∧ 1 ≤ l.length ∧ 1 ≤ t.length :=
  ⟨_, _, _, rfl, Content.getWordPressVersion_one_le_length d,
   Content.getWordPressLanguage_one_le_length d,
   Content.getWordPressTheme_one_le_length d⟩

/-- C9: on an unparseable URL, classification resolves to absent without
throwing past the caller, the background clears the toolbar badge
(empty text, generic tooltip) and the popup shows the no-data state. -/
theorem c9_invalid_url_no_data (url : String) (hu : parseUrl url = none) :
    Background.detectEnvironmentFromUrl url = none
    ∧ Background.updateExtensionBadge url
        = { text := "", color := none, title := "WordPress Environment Indicator" }
    ∧ Popup.detectEnvironmentInPopup url = .noData := by
  have h1 : Background.detectEnvironmentFromUrl url = none := by
    unfold Background.detectEnvironmentFromUrl
    rw [hu]
  refine ⟨h1, ?_, ?_⟩
  · unfold Background.updateExtensionBadge
    rw [h1]
  · unfold Popup.detectEnvironmentInPopup
    rw [hu]

/-- Witness for C9 at the concrete malformed input `not a url`. -/
theorem c9_invalid_url_no_data_witness :
    parseUrl "not a url" = none
    ∧ (Background.detectEnvironmentFromUrl "not a url" = none
       ∧ Background.updateExtensionBadge "not a url"
           = { text := "", color := none, title := "WordPress Environment Indicator" }
       ∧ Popup.detectEnvironmentInPopup "not a url" = .noData) :=
  ⟨by decide, c9_invalid_url_no_data "not a url" (by decide)⟩

/-- Document for C2: `www.example.com` matches no classification rule;
the page is a WordPress site with an admin bar and site-name anchor and
currently carries no badge. -/
def c2Doc : Content.DocState :=
  { hostname := "www.example.com"
    href := "https://www.example.com/"
    wp := { hasAdminBar := true, bodyClassList := ["admin-bar"],
            hasWpBody := false, hasWpContent := false, hasWpFooter := false,
            generatorContent := none }
    hasSiteNameAnchor := true
    hasRootDefaultAnchor := false
    hasAbTopMenuAnchor := false
    badges := [] }

/-- Store for C2: a verdict persisted by an earlier pass on a staging
host. -/
def c2PriorStore : Content.StoredState :=
  { currentEnvironment := some Content.createStagingEnvironment
    currentUrl := some "https://myapp.staging.example.com/"
    detectedAt := some "2025-09-16T12:00:00.000Z" }

/-- C2 (counterexample): the claim says that after a reconcile pass on a
document whose hostname matches no rule the persisted
`currentEnvironment` is cleared/absent.  False: the pass whose input is
`c2Doc` (hostname `www.example.com`) completes with no badge, yet the
previously stored staging verdict is still present — `injectBadge`
returned before touching storage, leaving the stored verdict stale
relative to this completed later pass. -/
theorem c2_store_not_cleared_counterexample :
    (Content.injectBadge "2025-09-16T12:05:00.000Z" c2Doc c2PriorStore).1.badges = []
    ∧ (Content.injectBadge "2025-09-16T12:05:00.000Z" c2Doc c2PriorStore).2.1.currentEnvironment
        = some Content.createStagingEnvironment
    ∧ ¬ (Content.injectBadge "2025-09-16T12:05:00.000Z" c2Doc c2PriorStore).2.1.currentEnvironment
        = none := by
  decide

/-- C2 (amended): after a reconcile pass completes on a document (holding
at most one badge) whose hostname matches no classification rule, no
badge is present — but the persisted store is left wholly unchanged: a
previously stored `currentEnvironment` is not cleared, so the stored
verdict can be stale relative to the later completed pass. -/
theorem c2_amended_store_unchanged (now : String) (d : Content.DocState)
    (st : Content.StoredState) (hb : d.badges.length ≤ 1)
    (hn : Content.detectEnvironmentType d.hostname = none) :
    (Content.injectBadge now d st).1.badges = []
    ∧ (Content.injectBadge now d st).2.1 = st
    ∧ (Content.injectBadge now d st).2.2 = [] := by
  rw [Content.injectBadge_spec, hn]
  exact ⟨by simp [Content.removeExistingBadge, tail_eq_nil_of_length_le_one hb],
    rfl, rfl⟩

/-- Witness for C2 (amended) at the concrete `www.example.com` document
and stored staging verdict. -/
theorem c2_amended_store_unchanged_witness :
    (Content.injectBadge "2025-09-16T12:06:00.000Z" c2Doc c2PriorStore).1.badges = []
    ∧ (Content.injectBadge "2025-09-16T12:06:00.000Z" c2Doc c2PriorStore).2.1 = c2PriorStore
    ∧ (Content.injectBadge "2025-09-16T12:06:00.000Z" c2Doc c2PriorStore).2.2 = [] :=
  c2_amended_store_unchanged "2025-09-16T12:06:00.000Z" c2Doc c2PriorStore
    (by decide) (by decide)

/-- C3 (counterexample): the claim says the classifier is case-insensitive
on its hostname argument — `classify(h) = classify(lowercase(h))` for
every `h`, and uppercase development suffixes classify like their
lowercase forms.  False at `FOO.TEST`: the development-suffix rule
compares case-sensitively, so `FOO.TEST` falls through to the
case-insensitive staging pattern `/test/i` and classifies as Staging,
while its lowercase form `foo.test` classifies as Development. -/
theorem c3_case_insensitivity_counterexample :
    Content.detectEnvironmentType "FOO.TEST" = some Content.createStagingEnvironment
    ∧ Content.detectEnvironmentType (lowerStr "FOO.TEST")
        = some (Content.createDevelopmentEnvironment false)
    ∧ ¬ Content.detectEnvironmentType "FOO.TEST"
        = Content.detectEnvironmentType (lowerStr "FOO.TEST") := by
  decide

/-- C3 (amended): only the staging patterns are case-insensitive: the
staging check agrees on a hostname and its lowercase form (so
`STAGING.example.com` classifies as Staging), but rules 1 and 2 compare
case-sensitively, so `LOCALHOST` classifies as absent and `FOO.TEST` as
Staging while their lowercase forms classify as Development. -/
theorem c3_amended_case_sensitivity :
    Content.detectEnvironmentType "STAGING.example.com"
        = some Content.createStagingEnvironment
    ∧ (∀ h : String,
        Content.isStagingEnvironment h = Content.isStagingEnvironment (lowerStr h))
    ∧ Content.detectEnvironmentType "LOCALHOST" = none
    ∧ Content.detectEnvironmentType (lowerStr "LOCALHOST")
        = some (Content.createDevelopmentEnvironment true)
    ∧ Content.detectEnvironmentType "FOO.TEST" = some Content.createStagingEnvironment
    ∧ Content.detectEnvironmentType "foo.test"
        = some (Content.createDevelopmentEnvironment false) := by
  refine ⟨by decide, ?_, by decide, by decide, by decide, by decide⟩
  intro h
  simp only [Content.isStagingEnvironment, regexTestCI, lowerStr_idem]

/-- C5: every hostname ending in `.test` classifies as Development — via
the suffix rule (tld variant) whenever rule 1 does not already apply —
and never as Staging, although the staging pattern `/test/i` does match
the hostname: rule 2 is evaluated before rule 3 and the first match
wins. -/
theorem c5_test_suffix_priority (h : String)
    (hsuf : jsEndsWith h ".test" = true) :
    ∃ e, Content.detectEnvironmentType h = some e
      ∧ e.type = .development
      ∧ (Content.isLocalDevelopment h = false →
          e = Content.createDevelopmentEnvironment false)
      ∧ Content.isStagingEnvironment h = true := by
  have htld : Content.isDevelopmentTLD h = true := by
    unfold Content.isDevelopmentTLD Content.developmentTlds
    simp only [List.any_cons, List.any_nil, Bool.or_eq_true]
    exact Or.inr (Or.inl hsuf)
  have hstag : Content.isStagingEnvironment h = true := by
    obtain ⟨t, ht⟩ := jsEndsWith_decomp hsuf
    unfold Content.isStagingEnvironment Content.stagingPatternStrings
    simp only [List.any_cons, List.any_nil, Bool.or_eq_true]
    refine Or.inr (Or.inr (Or.inr (Or.inr (Or.inl ?_))))
    show listContains "test".data (lowerStr h).data = true
    have hdata : (lowerStr h).data = t.map Char.toLower ++ ".test".data := by
      show (h.data.map Char.toLower) = t.map Char.toLower ++ ".test".data
      rw [ht, List.map_append]
      exact congrArg _ (by decide)
    rw [hdata]
    exact listContains_append_right _ _ (by decide) _
  by_cases hloc : Content.isLocalDevelopment h = true
  · refine ⟨Content.createDevelopmentEnvironment true, ?_, rfl, ?_, hstag⟩
    · unfold Content.detectEnvironmentType
      rw [hloc]
      rfl
    · intro hfalse
      rw [hloc] at hfalse
      cases hfalse
  · have hloc2 : Content.isLocalDevelopment h = false := by
      cases hl : Content.isLocalDevelopment h
      · rfl
      · exact absurd hl hloc
    refine ⟨Content.createDevelopmentEnvironment false, ?_, rfl, fun _ => rfl, hstag⟩
    unfold Content.detectEnvironmentType
    rw [hloc2, htld]
    rfl

/-- Witness for C5 at the concrete hostname `foo.test`. -/
theorem c5_test_suffix_priority_witness :
    jsEndsWith "foo.test" ".test" = true
    ∧ ∃ e, Content.detectEnvironmentType "foo.test" = some e
        ∧ e.type = .development
        ∧ (Content.isLocalDevelopment "foo.test" = false →
            e = Content.createDevelopmentEnvironment false)
        ∧ Content.isStagingEnvironment "foo.test" = true :=
  ⟨by decide, c5_test_suffix_priority "foo.test" (by decide)⟩

/-- C6: reconcile (`injectBadge`) is idempotent and preserves the
single-badge invariant: on any document carrying at most one badge node,
running a pass leaves at most one badge node (exactly the one badge with
the environment's content when the site predicate holds, a verdict exists
and an anchor point is available), and running a second pass yields
exactly the same badge nodes — never two — because the existing badge is
removed unconditionally before insertion. -/
theorem c6_reconcile_idempotent (now now2 : String) (d : Content.DocState)
    (st : Content.StoredState) (hb : d.badges.length ≤ 1) :
    (Content.injectBadge now2 (Content.injectBadge now d st).1
        (Content.injectBadge now d st).2.1).1.badges
      = (Content.injectBadge now d st).1.badges
    ∧ (Content.injectBadge now d st).1.badges.length ≤ 1
    ∧ (∀ env, Content.detectEnvironmentType d.hostname = some env →
        Content.isWordPressSite d.wp = true →
        ¬ Content.findBadgeInjectionPoint d = none →
        (Content.injectBadge now d st).1.badges
          = [Content.createEnvironmentBadge env]) := by
  have htail : d.badges.tail = [] := tail_eq_nil_of_length_le_one hb
  have hB1 := Content.injectBadge_badges now d st htail
  have hlen : (Content.injectBadge now d st).1.badges.length ≤ 1 := by
    rw [hB1]
    cases hE : Content.detectEnvironmentType d.hostname with
    | none => simp
    | some env =>
      dsimp only
      split <;> simp
  have htail2 : (Content.injectBadge now d st).1.badges.tail = [] :=
    tail_eq_nil_of_length_le_one hlen
  obtain ⟨hh, hw, hf⟩ := Content.injectBadge_statics now d st
  have hB2 := Content.injectBadge_badges now2 (Content.injectBadge now d st).1
      (Content.injectBadge now d st).2.1 htail2
  refine ⟨?_, hlen, ?_⟩
  · rw [hB2, hh, hw, hf, hB1]
  · intro env hE hW hF
    rw [hB1, hE, hW]
    rw [Option.ne_none_iff_isSome.mp hF]
    simp

/-- Document for the C6 witness: `localhost` WordPress page with an admin
bar, a site-name anchor and no badge yet. -/
def c6Doc : Content.DocState :=
  { hostname := "localhost"
    href := "http://localhost/wp-admin/"
    wp := { hasAdminBar := true, bodyClassList := ["wp-admin"],
            hasWpBody := true, hasWpContent := false, hasWpFooter := false,
            generatorContent := none }
    hasSiteNameAnchor := true
    hasRootDefaultAnchor := false
    hasAbTopMenuAnchor := false
    badges := [] }

/-- Empty store for the C6 witness. -/
def c6Store : Content.StoredState :=
  { currentEnvironment := none, currentUrl := none, detectedAt := none }

/-- Witness for C6 at the concrete `localhost` document: two passes yield
the same single development badge. -/
theorem c6_reconcile_idempotent_witness :
    (Content.injectBadge "t2" (Content.injectBadge "t1" c6Doc c6Store).1
        (Content.injectBadge "t1" c6Doc c6Store).2.1).1.badges
      = (Content.injectBadge "t1" c6Doc c6Store).1.badges
    ∧ (Content.injectBadge "t1" c6Doc c6Store).1.badges
      = [Content.createEnvironmentBadge (Content.createDevelopmentEnvironment true)] :=
  ⟨(c6_reconcile_idempotent "t1" "t2" c6Doc c6Store (by decide)).1,
   (c6_reconcile_idempotent "t1" "t2" c6Doc c6Store (by decide)).2.2
     (Content.createDevelopmentEnvironment true) (by decide) (by decide) (by decide)⟩

/-- C7 (counterexample): the claim says each context's classifier returns
a `tld`-variant display color for rule 2, distinct from the rule-1 color.
False for the popup context: its classifier collapses both development
rules into the single `ENVIRONMENT_CONFIG.development` object, so
`foo.test` (rule 2) gets the same `#28a745` color as `localhost`
(rule 1), not a distinct one. -/
theorem c7_popup_color_counterexample :
    Popup.detectEnvironmentType "foo.test" = some Popup.developmentConfig
    ∧ Popup.detectEnvironmentType "localhost" = some Popup.developmentConfig
    ∧ Popup.developmentConfig.color = "#28a745"
    ∧ ¬ Popup.developmentConfig.color = "#4f39f6" := by
  decide

/-- C7 (amended): in the content-script and background classifiers, a
hostname matched by rule 2 and not rule 1 yields a Development
environment with the `tld` color `#4f39f6`, distinct from rule 1's
`#28a745`; the popup classifier however returns the one shared
Development config colored `#28a745` for both rules. -/
theorem c7_amended_tld_color (h : String)
    (hloc : Content.isLocalDevelopment h = false)
    (htld : Content.isDevelopmentTLD h = true) :
    Content.detectEnvironmentType h
        = some (Content.createDevelopmentEnvironment false)
    ∧ (Content.createDevelopmentEnvironment false).color = "#4f39f6"
    ∧ (Content.createDevelopmentEnvironment true).color = "#28a745"
    ∧ (Background.bgDevGroup1 h = false →
        Background.bgClassifyHost h
          = .ok (some { type := .development, name := "Development",
                        color := "#4f39f6" }))
    ∧ Popup.detectEnvironmentType h = some Popup.developmentConfig
    ∧ Popup.developmentConfig.color = "#28a745" := by
  have htld2 : Background.bgDevGroup2 h = true := htld
  have hpopTld : Popup.isDevelopmentTLD h = true := htld
  have hpopLoc : Popup.isLocalDevelopment h = false := hloc
  refine ⟨?_, rfl, rfl, ?_, ?_, rfl⟩
  · unfold Content.detectEnvironmentType
    rw [hloc, htld]
    rfl
  · intro hg1
    unfold Background.bgClassifyHost
    rw [hg1, htld2]
    rfl
  · unfold Popup.detectEnvironmentType
    rw [hpopLoc, hpopTld]
    rfl

/-- Witness for C7 (amended) at the concrete hostname `foo.test`. -/
theorem c7_amended_tld_color_witness :
    Content.detectEnvironmentType "foo.test"
        = some (Content.createDevelopmentEnvironment false)
    ∧ Background.bgClassifyHost "foo.test"
        = .ok (some { type := .development, name := "Development",
                      color := "#4f39f6" })
    ∧ Popup.detectEnvironmentType "foo.test" = some Popup.developmentConfig :=
  ⟨(c7_amended_tld_color "foo.test" (by decide) (by decide)).1,
   (c7_amended_tld_color "foo.test" (by decide) (by decide)).2.2.2.1 (by decide),
   (c7_amended_tld_color "foo.test" (by decide) (by decide)).2.2.2.2.1⟩

/-- C10: `injectBadge` persists and notifies only when both the
WordPress-site predicate holds and the classifier returns a verdict: when
either precondition fails the pass returns early, leaving the stored
`currentEnvironment`, `currentUrl` and `detectedAt` wholly unchanged and
sending nothing (in particular `currentEnvironment` is never overwritten
with an absent value); when both hold it overwrites the store with the
fresh verdict, URL and timestamp and sends `environmentUpdated`. -/
theorem c10_injectBadge_frame (now : String) (d : Content.DocState)
    (st : Content.StoredState) :
    ((Content.isWordPressSite d.wp = false
        ∨ Content.detectEnvironmentType d.hostname = none) →
      (Content.injectBadge now d st).2.1 = st
      ∧ (Content.injectBadge now d st).2.2 = [])
    ∧ (∀ env, Content.isWordPressSite d.wp = true →
        Content.detectEnvironmentType d.hostname = some env →
        (Content.injectBadge now d st).2.1
          = { currentEnvironment := some env, currentUrl := some d.href,
              detectedAt := some now }
        ∧ (Content.injectBadge now d st).2.2
          = [.environmentUpdated env]) := by
  constructor
  · intro hcase
    rw [Content.injectBadge_spec]
    rcases hcase with hW | hE
    · cases hE2 : Content.detectEnvironmentType d.hostname with
      | none => exact ⟨rfl, rfl⟩
      | some env => rw [hW]; exact ⟨rfl, rfl⟩
    · rw [hE]; exact ⟨rfl, rfl⟩
  · intro env hW hE
    rw [Content.injectBadge_spec, hE, hW]
    cases hF : Content.findBadgeInjectionPoint d <;> exact ⟨rfl, rfl⟩

/-- Document for the C10 witness, positive case: `foo.test` WordPress
page. -/
def c10Doc : Content.DocState :=
  { hostname := "foo.test"
    href := "https://foo.test/"
    wp := { hasAdminBar := true, bodyClassList := [],
            hasWpBody := false, hasWpContent := false, hasWpFooter := false,
            generatorContent := none }
    hasSiteNameAnchor := true
    hasRootDefaultAnchor := false
    hasAbTopMenuAnchor := false
    badges := [] }

/-- Document for the C10 witness, negative case: same page but with no
WordPress signal at all. -/
def c10NoWpDoc : Content.DocState :=
  { hostname := "foo.test"
    href := "https://foo.test/"
    wp := { hasAdminBar := false, bodyClassList := [],
            hasWpBody := false, hasWpContent := false, hasWpFooter := false,
            generatorContent := none }
    hasSiteNameAnchor := true
    hasRootDefaultAnchor := false
    hasAbTopMenuAnchor := false
    badges := [] }

/-- Store for the C10 witness. -/
def c10Store : Content.StoredState :=
  { currentEnvironment := none, currentUrl := none, detectedAt := none }

/-- Witness for C10: on the WordPress `foo.test` page the store is
overwritten and `environmentUpdated` sent; on the non-WordPress page the
store is untouched. -/
theorem c10_injectBadge_frame_witness :
    ((Content.injectBadge "2025-01-01T00:00:00.000Z" c10Doc c10Store).2.1
      = { currentEnvironment := some (Content.createDevelopmentEnvironment false)
          currentUrl := some "https://foo.test/"
          detectedAt := some "2025-01-01T00:00:00.000Z" }
     ∧ (Content.injectBadge "2025-01-01T00:00:00.000Z" c10Doc c10Store).2.2
      = [.environmentUpdated (Content.createDevelopmentEnvironment false)])
    ∧ (Content.injectBadge "2025-01-01T00:00:00.000Z" c10NoWpDoc c10Store).2.1
      = c10Store :=
  ⟨(c10_injectBadge_frame "2025-01-01T00:00:00.000Z" c10Doc c10Store).2
     (Content.createDevelopmentEnvironment false) (by decide) (by decide),
   ((c10_injectBadge_frame "2025-01-01T00:00:00.000Z" c10NoWpDoc c10Store).1
     (Or.inl (by decide))).1⟩
